import Mathlib

/-!
Verification of the live voice translation session core: the playback
scheduler, transcript aggregator, session stop / history persistence of the
`LiveVoiceTranslator` component, and the `parseApiError` classifier.

Text is modelled as `List Char` (the character sequence of a JS string),
clock times and durations as rationals.
-/

namespace LiveVoice

/-- Characters of a JS string. -/
abbrev Str := List Char

/-- JS `String.prototype.trim`: drop whitespace from both ends. -/
def trimStr (s : Str) : Str :=
  ((s.dropWhile Char.isWhitespace).reverse.dropWhile Char.isWhitespace).reverse

/-- JS `String.prototype.toLowerCase` (character-wise model). -/
def lowerStr (s : Str) : Str := s.map Char.toLower

/-- JS `String.prototype.includes`: substring containment. -/
def containsStr : Str → Str → Bool
  | [], needle => needle.isEmpty
  | c :: t, needle => needle.isPrefixOf (c :: t) || containsStr t needle

/-- JS `Array.prototype.slice(-n)`: the last `n` elements. -/
def lastN (n : ℕ) (l : List α) : List α := l.drop (l.length - n)

/-- Classified message from `src/utils/errorUtils.ts` `parseApiError`,
translated branch for branch; the input is the extracted error message. -/
def parseApiError (message : Str) : Str :=
  if containsStr message "429".data
      || containsStr (lowerStr message) "too many requests".data then
    "Rate limit exceeded. Please wait a moment before trying again.".data
  else if containsStr message "401".data
      || containsStr (lowerStr message) "api key".data then
    "Invalid API key. Please check your configuration.".data
  else if containsStr message "403".data then
    "Permission denied. Your API key may not have access to this model or region.".data
  else if containsStr message "500".data || containsStr message "503".data then
    "The translation service is currently busy or unavailable. Please try again later.".data
  else if containsStr (lowerStr message) "safety".data
      || containsStr (lowerStr message) "blocked".data then
    "The content was flagged by safety filters and could not be processed.".data
  else if containsStr (lowerStr message) "network".data
      || containsStr (lowerStr message) "fetch".data then
    "Network error. Please check your internet connection.".data
  else if containsStr (lowerStr message) "quota".data then
    "Account quota exceeded. Please check your Google AI Studio billing status.".data
  else
    "An unexpected error occurred: ".data ++ message

/-- Speaker role of a transcript entry. -/
inductive Role
  | user
  | model
deriving DecidableEq

/-- One committed transcript entry (`{ role, text }` in the component state). -/
structure Turn where
  role : Role
  text : Str
deriving DecidableEq

/-- A scheduled `AudioBufferSourceNode`: the start time passed to
`source.start`, the decoded buffer duration, and the playback rate applied. -/
structure Clip where
  startAt : ℚ
  duration : ℚ
  rate : ℚ
deriving DecidableEq

/-- `VoiceHistoryItem` from `types.ts`. -/
structure VoiceHistoryItem where
  id : Str
  timestamp : ℤ
  messages : List Turn
  summary : Str
deriving DecidableEq

/-- The mutable state of `LiveVoiceTranslator` touched by the live session:
React state plus the refs (`nextStartTimeRef`, `sourcesRef`,
`currentTranscriptionRef`, resource refs as held/released flags).
`decodeErrors` counts the `console.error` reports of decode failures. -/
structure SessionState where
  isActive : Bool
  isConnecting : Bool
  nextStartTime : ℚ
  sources : List Clip
  userAcc : Str
  modelAcc : Str
  transcriptions : List Turn
  history : List VoiceHistoryItem
  streamHeld : Bool
  audioCtxHeld : Bool
  outputCtxHeld : Bool
  sessionHeld : Bool
  decodeErrors : ℕ
deriving DecidableEq

/-- One inbound `LiveServerMessage` as used by the `onmessage` handler.
`audio = some payload` means `serverContent.modelTurn.parts[0].inlineData.data`
is present; `payload = some d` means `decodeAudioData` succeeds with a buffer
of duration `d`, `payload = none` means decoding throws. -/
structure ServerMessage where
  audio : Option (Option ℚ)
  interrupted : Bool
  inputTranscription : Option Str
  outputTranscription : Option Str
  turnComplete : Bool
deriving DecidableEq

/-- Lines 171–195 of the component: if audio data is present, clamp the
cursor to the output clock, then decode; on success start a source at the
cursor, advance the cursor by `duration / speechRate` and register the
source; on decode failure report and drop. Returns the clip started, if
any. -/
def audioStep (rate now : ℚ) (s : SessionState) : Option (Option ℚ) → SessionState × Option Clip
  | none => (s, none)
  | some none =>
      ({ s with nextStartTime := max s.nextStartTime now,
                decodeErrors := s.decodeErrors + 1 }, none)
  | some (some d) =>
      ({ s with nextStartTime := max s.nextStartTime now + d / rate,
                sources := s.sources ++ [⟨max s.nextStartTime now, d, rate⟩] },
       some ⟨max s.nextStartTime now, d, rate⟩)

/-- Lines 197–203: on `interrupted`, stop every in-flight source, clear the
set and reset the cursor to `0`. -/
def interruptStep (s : SessionState) : Bool → SessionState
  | true => { s with sources := [], nextStartTime := 0 }
  | false => s

/-- Lines 205–207: append an input transcription delta to the user
accumulator. -/
def inputDeltaStep (s : SessionState) : Option Str → SessionState
  | some t => { s with userAcc := s.userAcc ++ t }
  | none => s

/-- Lines 208–210: append an output transcription delta to the model
accumulator. -/
def outputDeltaStep (s : SessionState) : Option Str → SessionState
  | some t => { s with modelAcc := s.modelAcc ++ t }
  | none => s

/-- Lines 212–227: on `turnComplete`, trim both accumulators, and if either
is non-empty append a user turn (if non-empty) then a model turn (if
non-empty) to the transcript, keeping only the last 20 entries; finally
reset both accumulators. -/
def turnCompleteStep (s : SessionState) : Bool → SessionState
  | false => s
  | true =>
      let u := trimStr s.userAcc
      let m := trimStr s.modelAcc
      let flushed :=
        lastN 20 (s.transcriptions
          ++ (if u.isEmpty then [] else [⟨Role.user, u⟩])
          ++ (if m.isEmpty then [] else [⟨Role.model, m⟩]))
      let s1 :=
        if u.isEmpty && m.isEmpty then s
        else { s with transcriptions := flushed }
      { s1 with userAcc := [], modelAcc := [] }

/-- The whole `onmessage` handler (lines 170–227), with `now` the value of
`outputAudioCtx.currentTime` while this message is handled and `rate` the
captured `speechRate`. -/
def handleMessage (rate now : ℚ) (s : SessionState) (msg : ServerMessage) :
    SessionState × Option Clip :=
  let a := audioStep rate now s msg.audio
  let s1 := interruptStep a.1 msg.interrupted
  let s2 := inputDeltaStep s1 msg.inputTranscription
  let s3 := outputDeltaStep s2 msg.outputTranscription
  (turnCompleteStep s3 msg.turnComplete, a.2)

/-- Handle a sequence of timed messages, collecting each scheduled clip
together with the clock time at which it was scheduled. -/
def runMsgs (rate : ℚ) (s : SessionState) :
    List (ℚ × ServerMessage) → SessionState × List (ℚ × Clip)
  | [] => (s, [])
  | (now, m) :: rest =>
      let step := handleMessage rate now s m
      let next := runMsgs rate step.1 rest
      (next.1,
       (match step.2 with | some c => [(now, c)] | none => []) ++ next.2)

/-- Lines 101–102: the history summary derived from the first message. -/
def summaryOf (firstMsg : Str) : Str :=
  if 60 < firstMsg.length then firstMsg.take 60 ++ "...".data else firstMsg

/-- Lines 98–112 `saveCurrentSessionToHistory`: no entry for an empty
transcript; otherwise prepend a fresh entry and keep at most 30. -/
def saveCurrentSessionToHistory (newId : Str) (ts : ℤ) (msgs : List Turn)
    (history : List VoiceHistoryItem) : List VoiceHistoryItem :=
  match msgs with
  | [] => history
  | m0 :: _ => ({ id := newId, timestamp := ts, messages := msgs,
                  summary := summaryOf m0.text } :: history).take 30

/-- Observable side effects of `stopSession` on external resources. -/
inductive Action
  | stopTrack
  | closeAudioCtx
  | closeOutputCtx
  | stopSource (c : Clip)
  | closeChannel
  | saveHistory
deriving DecidableEq

/-- Lines 250–283 `stopSession`: save the transcript to history when the
session is active, clear the flags, release each still-held resource, stop
and clear all in-flight sources and close the channel. `newId` and `ts`
stand for `crypto.randomUUID()` and `Date.now()` of this call. -/
def stopSession (newId : Str) (ts : ℤ) (s : SessionState) :
    SessionState × List Action :=
  ({ s with isActive := false, isConnecting := false,
            history := if s.isActive then
                saveCurrentSessionToHistory newId ts s.transcriptions s.history
              else s.history,
            streamHeld := false, audioCtxHeld := false, outputCtxHeld := false,
            sources := [], sessionHeld := false },
   (if s.isActive && !s.transcriptions.isEmpty then [Action.saveHistory] else [])
     ++ (if s.streamHeld then [Action.stopTrack] else [])
     ++ (if s.audioCtxHeld then [Action.closeAudioCtx] else [])
     ++ (if s.outputCtxHeld then [Action.closeOutputCtx] else [])
     ++ s.sources.map Action.stopSource
     ++ (if s.sessionHeld then [Action.closeChannel] else []))

/-- Session state right after `onopen` of a freshly started session:
`startSession` cleared the transcript and error, acquired the stream and the
two audio contexts, and the connect promise is held. -/
def openState (h0 : List VoiceHistoryItem) : SessionState :=
  { isActive := true, isConnecting := false, nextStartTime := 0, sources := [],
    userAcc := [], modelAcc := [], transcriptions := [], history := h0,
    streamHeld := true, audioCtxHeld := true, outputCtxHeld := true,
    sessionHeld := true, decodeErrors := 0 }

/-- A message carrying only a successfully decoding audio payload. -/
def audioOnly (d : ℚ) : ServerMessage :=
  { audio := some (some d), interrupted := false, inputTranscription := none,
    outputTranscription := none, turnComplete := false }

/-- A message whose audio payload fails to decode. -/
def audioFail : ServerMessage :=
  { audio := some none, interrupted := false, inputTranscription := none,
    outputTranscription := none, turnComplete := false }

/-- A pure interruption message. -/
def interruptMsg : ServerMessage :=
  { audio := none, interrupted := true, inputTranscription := none,
    outputTranscription := none, turnComplete := false }

/-- A user-side transcription delta message. -/
def userDelta (t : Str) : ServerMessage :=
  { audio := none, interrupted := false, inputTranscription := some t,
    outputTranscription := none, turnComplete := false }

/-- A model-side transcription delta message. -/
def modelDelta (t : Str) : ServerMessage :=
  { audio := none, interrupted := false, inputTranscription := none,
    outputTranscription := some t, turnComplete := false }

/-- A pure turn-complete message. -/
def turnCompleteMsg : ServerMessage :=
  { audio := none, interrupted := false, inputTranscription := none,
    outputTranscription := none, turnComplete := true }

@[simp] lemma interruptStep_false (s : SessionState) : interruptStep s false = s := rfl

@[simp] lemma interruptStep_isActive (s : SessionState) (b : Bool) :
    (interruptStep s b).isActive = s.isActive := by cases b <;> rfl

@[simp] lemma interruptStep_transcriptions (s : SessionState) (b : Bool) :
    (interruptStep s b).transcriptions = s.transcriptions := by cases b <;> rfl

@[simp] lemma inputDeltaStep_nextStartTime (s : SessionState) (o : Option Str) :
    (inputDeltaStep s o).nextStartTime = s.nextStartTime := by cases o <;> rfl

@[simp] lemma inputDeltaStep_sources (s : SessionState) (o : Option Str) :
    (inputDeltaStep s o).sources = s.sources := by cases o <;> rfl

@[simp] lemma inputDeltaStep_isActive (s : SessionState) (o : Option Str) :
    (inputDeltaStep s o).isActive = s.isActive := by cases o <;> rfl

@[simp] lemma inputDeltaStep_transcriptions (s : SessionState) (o : Option Str) :
    (inputDeltaStep s o).transcriptions = s.transcriptions := by cases o <;> rfl

@[simp] lemma outputDeltaStep_nextStartTime (s : SessionState) (o : Option Str) :
    (outputDeltaStep s o).nextStartTime = s.nextStartTime := by cases o <;> rfl

@[simp] lemma outputDeltaStep_sources (s : SessionState) (o : Option Str) :
    (outputDeltaStep s o).sources = s.sources := by cases o <;> rfl

@[simp] lemma outputDeltaStep_isActive (s : SessionState) (o : Option Str) :
    (outputDeltaStep s o).isActive = s.isActive := by cases o <;> rfl

@[simp] lemma outputDeltaStep_transcriptions (s : SessionState) (o : Option Str) :
    (outputDeltaStep s o).transcriptions = s.transcriptions := by cases o <;> rfl

@[simp] lemma turnCompleteStep_nextStartTime (s : SessionState) (b : Bool) :
    (turnCompleteStep s b).nextStartTime = s.nextStartTime := by
  cases b
  · rfl
  · simp only [turnCompleteStep]
    split <;> rfl

@[simp] lemma turnCompleteStep_sources (s : SessionState) (b : Bool) :
    (turnCompleteStep s b).sources = s.sources := by
  cases b
  · rfl
  · simp only [turnCompleteStep]
    split <;> rfl

@[simp] lemma turnCompleteStep_isActive (s : SessionState) (b : Bool) :
    (turnCompleteStep s b).isActive = s.isActive := by
  cases b
  · rfl
  · simp only [turnCompleteStep]
    split <;> rfl

@[simp] lemma audioStep_isActive (rate now : ℚ) (s : SessionState) (p : Option (Option ℚ)) :
    (audioStep rate now s p).1.isActive = s.isActive := by
  rcases p with _ | (_ | d) <;> rfl

@[simp] lemma audioStep_transcriptions (rate now : ℚ) (s : SessionState) (p : Option (Option ℚ)) :
    (audioStep rate now s p).1.transcriptions = s.transcriptions := by
  rcases p with _ | (_ | d) <;> rfl

lemma handleMessage_snd (rate now : ℚ) (s : SessionState) (msg : ServerMessage) :
    (handleMessage rate now s msg).2 = (audioStep rate now s msg.audio).2 := rfl

lemma handleMessage_nextStartTime (rate now : ℚ) (s : SessionState) (msg : ServerMessage)
    (hni : msg.interrupted = false) :
    (handleMessage rate now s msg).1.nextStartTime
      = (audioStep rate now s msg.audio).1.nextStartTime := by
  simp [handleMessage, hni]

@[simp] lemma handleMessage_isActive (rate now : ℚ) (s : SessionState) (msg : ServerMessage) :
    (handleMessage rate now s msg).1.isActive = s.isActive := by
  simp [handleMessage]

lemma lastN_length_le (n : ℕ) (l : List α) : (lastN n l).length ≤ n := by
  simp [lastN]
  omega

/-- The no-overlap chain invariant on a list of scheduled clips: each clip
starts no earlier than the incoming cursor bound and no earlier than the
output clock at its scheduling, and bounds the next clip by its own
rate-adjusted end. -/
def chainOk (rate : ℚ) : ℚ → List (ℚ × Clip) → Prop
  | _, [] => True
  | c0, (n, c) :: rest =>
      c0 ≤ c.startAt ∧ n ≤ c.startAt ∧ chainOk rate (c.startAt + c.duration / rate) rest

lemma runMsgs_chain (rate : ℚ) (msgs : List (ℚ × ServerMessage)) :
    ∀ (s : SessionState) (c0 : ℚ), c0 ≤ s.nextStartTime →
      (∀ p ∈ msgs, p.2.interrupted = false) →
      chainOk rate c0 (runMsgs rate s msgs).2 := by
  induction msgs with
  | nil =>
    intro s c0 _ _
    simp [runMsgs, chainOk]
  | cons p rest ih =>
    obtain ⟨now, m⟩ := p
    intro s c0 hc hni
    have hmi : m.interrupted = false := hni (now, m) (List.mem_cons_self _ _)
    have hrest : ∀ q ∈ rest, q.2.interrupted = false :=
      fun q hq => hni q (List.mem_cons_of_mem _ hq)
    have hcur := handleMessage_nextStartTime rate now s m hmi
    simp only [runMsgs, handleMessage_snd]
    rcases haud : m.audio with _ | (_ | d)
    · rw [haud] at hcur
      simp only [haud, audioStep, List.nil_append]
      exact ih _ c0 (hc.trans (le_of_eq hcur.symm)) hrest
    · rw [haud] at hcur
      simp only [haud, audioStep, List.nil_append]
      refine ih _ c0 (hc.trans ?_) hrest
      rw [hcur]
      exact le_max_left _ _
    · rw [haud] at hcur
      simp only [haud, audioStep, List.cons_append, List.nil_append]
      refine ⟨hc.trans (le_max_left _ _), le_max_right _ _, ?_⟩
      exact ih _ _ (le_of_eq hcur.symm) hrest

lemma chainOk_get (rate : ℚ) :
    ∀ (l : List (ℚ × Clip)) (c0 : ℚ), chainOk rate c0 l →
      ∀ (i : ℕ) (h : i + 1 < l.length),
        (l.get ⟨i, Nat.lt_of_succ_lt h⟩).2.startAt
            + (l.get ⟨i, Nat.lt_of_succ_lt h⟩).2.duration / rate
          ≤ (l.get ⟨i + 1, h⟩).2.startAt
        ∧ (l.get ⟨i + 1, h⟩).1 ≤ (l.get ⟨i + 1, h⟩).2.startAt := by
  intro l
  induction l with
  | nil =>
    intro c0 _ i h
    simp at h
  | cons x t ih =>
    intro c0 hch i h
    cases t with
    | nil =>
      simp at h
    | cons y t2 =>
      obtain ⟨h1, h2, hch2⟩ := hch
      cases i with
      | zero =>
        obtain ⟨h3, h4, _⟩ := hch2
        exact ⟨h3, h4⟩
      | succ j =>
        have hj : j + 1 < (y :: t2).length := Nat.lt_of_succ_lt_succ h
        exact ih _ hch2 j hj

@[simp] lemma interruptStep_history (s : SessionState) (b : Bool) :
    (interruptStep s b).history = s.history := by cases b <;> rfl

@[simp] lemma inputDeltaStep_history (s : SessionState) (o : Option Str) :
    (inputDeltaStep s o).history = s.history := by cases o <;> rfl

@[simp] lemma outputDeltaStep_history (s : SessionState) (o : Option Str) :
    (outputDeltaStep s o).history = s.history := by cases o <;> rfl

@[simp] lemma turnCompleteStep_history (s : SessionState) (b : Bool) :
    (turnCompleteStep s b).history = s.history := by
  cases b
  · rfl
  · simp only [turnCompleteStep]
    split <;> rfl

@[simp] lemma audioStep_history (rate now : ℚ) (s : SessionState) (p : Option (Option ℚ)) :
    (audioStep rate now s p).1.history = s.history := by
  rcases p with _ | (_ | d) <;> rfl

@[simp] lemma handleMessage_history (rate now : ℚ) (s : SessionState) (msg : ServerMessage) :
    (handleMessage rate now s msg).1.history = s.history := by
  simp [handleMessage]

@[simp] lemma interruptStep_decodeErrors (s : SessionState) (b : Bool) :
    (interruptStep s b).decodeErrors = s.decodeErrors := by cases b <;> rfl

@[simp] lemma inputDeltaStep_decodeErrors (s : SessionState) (o : Option Str) :
    (inputDeltaStep s o).decodeErrors = s.decodeErrors := by cases o <;> rfl

@[simp] lemma outputDeltaStep_decodeErrors (s : SessionState) (o : Option Str) :
    (outputDeltaStep s o).decodeErrors = s.decodeErrors := by cases o <;> rfl

@[simp] lemma turnCompleteStep_decodeErrors (s : SessionState) (b : Bool) :
    (turnCompleteStep s b).decodeErrors = s.decodeErrors := by
  cases b
  · rfl
  · simp only [turnCompleteStep]
    split <;> rfl

lemma handleMessage_sources (rate now : ℚ) (s : SessionState) (msg : ServerMessage)
    (hni : msg.interrupted = false) :
    (handleMessage rate now s msg).1.sources = (audioStep rate now s msg.audio).1.sources := by
  simp [handleMessage, hni]

lemma handleMessage_decodeErrors (rate now : ℚ) (s : SessionState) (msg : ServerMessage)
    (hni : msg.interrupted = false) :
    (handleMessage rate now s msg).1.decodeErrors
      = (audioStep rate now s msg.audio).1.decodeErrors := by
  simp [handleMessage, hni]

lemma turnCompleteStep_transcriptions_le (s : SessionState) (b : Bool)
    (h : s.transcriptions.length ≤ 20) :
    (turnCompleteStep s b).transcriptions.length ≤ 20 := by
  cases b
  · exact h
  · simp only [turnCompleteStep]
    split
    · exact h
    · exact lastN_length_le 20 _

lemma handleMessage_transcriptions_le (rate now : ℚ) (s : SessionState) (m : ServerMessage)
    (h : s.transcriptions.length ≤ 20) :
    (handleMessage rate now s m).1.transcriptions.length ≤ 20 := by
  have h3 : (outputDeltaStep (inputDeltaStep (interruptStep (audioStep rate now s m.audio).1
      m.interrupted) m.inputTranscription) m.outputTranscription).transcriptions
      = s.transcriptions := by simp
  show (turnCompleteStep _ m.turnComplete).transcriptions.length ≤ 20
  exact turnCompleteStep_transcriptions_le _ _ (h3 ▸ h)

lemma runMsgs_transcriptions_le (rate : ℚ) (msgs : List (ℚ × ServerMessage)) :
    ∀ s : SessionState, s.transcriptions.length ≤ 20 →
      (runMsgs rate s msgs).1.transcriptions.length ≤ 20 := by
  induction msgs with
  | nil =>
    intro s h
    exact h
  | cons p rest ih =>
    obtain ⟨now, m⟩ := p
    intro s h
    exact ih _ (handleMessage_transcriptions_le rate now s m h)

lemma runMsgs_isActive (rate : ℚ) (msgs : List (ℚ × ServerMessage)) :
    ∀ s : SessionState, (runMsgs rate s msgs).1.isActive = s.isActive := by
  induction msgs with
  | nil => intro s; rfl
  | cons p rest ih =>
    obtain ⟨now, m⟩ := p
    intro s
    rw [show (runMsgs rate s ((now, m) :: rest)).1
          = (runMsgs rate (handleMessage rate now s m).1 rest).1 from rfl,
        ih, handleMessage_isActive]

lemma runMsgs_history (rate : ℚ) (msgs : List (ℚ × ServerMessage)) :
    ∀ s : SessionState, (runMsgs rate s msgs).1.history = s.history := by
  induction msgs with
  | nil => intro s; rfl
  | cons p rest ih =>
    obtain ⟨now, m⟩ := p
    intro s
    rw [show (runMsgs rate s ((now, m) :: rest)).1
          = (runMsgs rate (handleMessage rate now s m).1 rest).1 from rfl,
        ih, handleMessage_history]

/-- Session state used in the C8 scenario: an open session with exactly one
committed user turn. -/
def oneTurnState : SessionState :=
  { openState [] with transcriptions := [⟨Role.user, "Hello".data⟩] }

/-- C1: over any sequence of inbound messages with no interruption event,
the start time passed to `source.start` for clip `i+1` is at least the start
time of clip `i` plus clip `i`'s decoded duration divided by the speech-rate
multiplier, and at least the output clock's `currentTime` at the moment clip
`i+1` was scheduled. -/
theorem schedule_no_overlap (rate : ℚ) (s : SessionState)
    (msgs : List (ℚ × ServerMessage))
    (hni : ∀ p ∈ msgs, p.2.interrupted = false)
    (i : ℕ) (h : i + 1 < (runMsgs rate s msgs).2.length) :
    ((runMsgs rate s msgs).2.get ⟨i, Nat.lt_of_succ_lt h⟩).2.startAt
        + ((runMsgs rate s msgs).2.get ⟨i, Nat.lt_of_succ_lt h⟩).2.duration / rate
      ≤ ((runMsgs rate s msgs).2.get ⟨i + 1, h⟩).2.startAt
    ∧ ((runMsgs rate s msgs).2.get ⟨i + 1, h⟩).1
      ≤ ((runMsgs rate s msgs).2.get ⟨i + 1, h⟩).2.startAt :=
  chainOk_get rate _ s.nextStartTime
    (runMsgs_chain rate msgs s s.nextStartTime le_rfl hni) i h

/-- Witness for C1: a concrete two-clip run. -/
theorem schedule_no_overlap_witness :
    ((runMsgs 1 (openState []) [((0:ℚ), audioOnly 2), ((0:ℚ), audioOnly 2)]).2.get
          ⟨0, by decide⟩).2.startAt
        + ((runMsgs 1 (openState []) [((0:ℚ), audioOnly 2), ((0:ℚ), audioOnly 2)]).2.get
          ⟨0, by decide⟩).2.duration / 1
      ≤ ((runMsgs 1 (openState []) [((0:ℚ), audioOnly 2), ((0:ℚ), audioOnly 2)]).2.get
          ⟨1, by decide⟩).2.startAt
    ∧ ((runMsgs 1 (openState []) [((0:ℚ), audioOnly 2), ((0:ℚ), audioOnly 2)]).2.get
          ⟨1, by decide⟩).1
      ≤ ((runMsgs 1 (openState []) [((0:ℚ), audioOnly 2), ((0:ℚ), audioOnly 2)]).2.get
          ⟨1, by decide⟩).2.startAt :=
  schedule_no_overlap 1 (openState []) [((0:ℚ), audioOnly 2), ((0:ℚ), audioOnly 2)]
    (by decide) 0 (by decide)

/-- C2, code behavior at the failing input: handling an interruption while
the output clock reads 5 and the cursor reads 3 resets the cursor to 0, not
to the clock time 5 the claim requires. -/
theorem interrupt_sets_cursor_zero :
    (handleMessage 1 5 { openState [] with nextStartTime := 3 }
        interruptMsg).1.nextStartTime = 0
    ∧ ¬ (handleMessage 1 5 { openState [] with nextStartTime := 3 }
        interruptMsg).1.nextStartTime = (5:ℚ) := by
  refine ⟨rfl, ?_⟩
  rw [show (handleMessage 1 5 { openState [] with nextStartTime := 3 }
      interruptMsg).1.nextStartTime = (0:ℚ) from rfl]
  norm_num

/-- C3: after an interruption message the in-flight source set is empty, and
the next successfully decoded audio clip is started exactly at the output
clock's `currentTime` of its arrival, not at a stale future cursor value. -/
theorem interrupt_reanchors (rate now1 now2 d : ℚ) (s : SessionState)
    (m1 m2 : ServerMessage) (h1 : m1.interrupted = true)
    (ha : m2.audio = some (some d)) (hn2 : 0 ≤ now2) :
    (handleMessage rate now1 s m1).1.sources = []
    ∧ (handleMessage rate now2 (handleMessage rate now1 s m1).1 m2).2
        = some ⟨now2, d, rate⟩ := by
  have hs1 : (handleMessage rate now1 s m1).1.sources = [] := by
    simp [handleMessage, h1, interruptStep]
  have hc1 : (handleMessage rate now1 s m1).1.nextStartTime = 0 := by
    simp [handleMessage, h1, interruptStep]
  refine ⟨hs1, ?_⟩
  rw [handleMessage_snd, ha]
  simp [audioStep, hc1, max_eq_right hn2]

/-- Witness for C3: interruption at clock time 3, then a 2-second clip
arriving at clock time 5 starts exactly at 5. -/
theorem interrupt_reanchors_witness :
    (handleMessage 1 3 (openState []) interruptMsg).1.sources = []
    ∧ (handleMessage 1 5 (handleMessage 1 3 (openState []) interruptMsg).1
        (audioOnly 2)).2 = some ⟨5, 2, 1⟩ :=
  interrupt_reanchors 1 3 5 2 (openState []) interruptMsg (audioOnly 2)
    rfl rfl (by norm_num)

/-- C4: a successfully decoded clip advances the cursor to exactly the
clamped read value plus `duration / rate`. -/
theorem cursor_advance_rate_adjusted (rate now d : ℚ) (s : SessionState)
    (m : ServerMessage) (_hr : 0 < rate) (ha : m.audio = some (some d))
    (hni : m.interrupted = false) :
    (handleMessage rate now s m).1.nextStartTime
      = max s.nextStartTime now + d / rate := by
  rw [handleMessage_nextStartTime rate now s m hni, ha]
  rfl

/-- Witness for C4: a clip of raw duration 2.0 at rate 2.0 advances the
cursor by 1.0, not 2.0. -/
theorem cursor_advance_rate_adjusted_witness :
    (0:ℚ) < 2
    ∧ (handleMessage 2 0 (openState []) (audioOnly 2)).1.nextStartTime = 1 := by
  refine ⟨by norm_num, ?_⟩
  rw [cursor_advance_rate_adjusted 2 0 2 (openState []) (audioOnly 2)
    (by norm_num) rfl rfl]
  norm_num [openState]

/-- C5: a clip that fails to decode is dropped: no source is scheduled or
registered, the decode error is reported (`console.error`) and not
re-raised, and apart from the clock clamp already performed on every audio
message the cursor is untouched, so subsequent scheduling is exactly as if
the failed clip had never arrived. -/
theorem decode_failure_drops_clip (rate now : ℚ) (s : SessionState)
    (m : ServerMessage) (ha : m.audio = some none) (hni : m.interrupted = false) :
    (handleMessage rate now s m).2 = none
    ∧ (handleMessage rate now s m).1.sources = s.sources
    ∧ (handleMessage rate now s m).1.nextStartTime = max s.nextStartTime now
    ∧ (handleMessage rate now s m).1.decodeErrors = s.decodeErrors + 1
    ∧ (handleMessage rate now s m).1
        = (handleMessage rate now
            { s with nextStartTime := max s.nextStartTime now,
                     decodeErrors := s.decodeErrors + 1 }
            { m with audio := none }).1
    ∧ (∀ now2 : ℚ, now ≤ now2 →
        max (handleMessage rate now s m).1.nextStartTime now2
          = max s.nextStartTime now2) := by
  have h2 : (handleMessage rate now s m).2 = none := by
    rw [handleMessage_snd, ha]
    rfl
  have hsrc : (handleMessage rate now s m).1.sources = s.sources := by
    rw [handleMessage_sources rate now s m hni, ha]
    rfl
  have hcur : (handleMessage rate now s m).1.nextStartTime = max s.nextStartTime now := by
    rw [handleMessage_nextStartTime rate now s m hni, ha]
    rfl
  have herr : (handleMessage rate now s m).1.decodeErrors = s.decodeErrors + 1 := by
    rw [handleMessage_decodeErrors rate now s m hni, ha]
    rfl
  refine ⟨h2, hsrc, hcur, herr, ?_, ?_⟩
  · simp [handleMessage, ha, audioStep]
  · intro now2 hle
    rw [hcur, max_assoc, max_eq_right hle]

/-- Witness for C5: a failed decode at clock time 3 schedules nothing and
leaves the effective cursor for a later clip at clock time 4 unchanged. -/
theorem decode_failure_drops_clip_witness :
    (handleMessage 1 3 (openState []) audioFail).2 = none
    ∧ max (handleMessage 1 3 (openState []) audioFail).1.nextStartTime 4
        = max (openState []).nextStartTime 4 :=
  ⟨(decode_failure_drops_clip 1 3 (openState []) audioFail rfl rfl).1,
   (decode_failure_drops_clip 1 3 (openState []) audioFail rfl rfl).2.2.2.2.2
     4 (by norm_num)⟩

/-- C6: a turn-complete event flushes the trimmed accumulators as committed
turns, user turn before model turn, never emitting a turn whose trimmed text
is empty, and resets both accumulators; in particular deltas "Hello" (user)
then "Bonjour" (model) then turn-complete yield exactly those two turns, and
model-only deltas yield only a model turn. -/
theorem turn_complete_flush :
    (∀ (rate now : ℚ) (s : SessionState),
        (handleMessage rate now s turnCompleteMsg).1.userAcc = []
      ∧ (handleMessage rate now s turnCompleteMsg).1.modelAcc = []
      ∧ (handleMessage rate now s turnCompleteMsg).1.transcriptions
          = (if (trimStr s.userAcc).isEmpty && (trimStr s.modelAcc).isEmpty
             then s.transcriptions
             else lastN 20 (s.transcriptions
               ++ (if (trimStr s.userAcc).isEmpty then []
                   else [⟨Role.user, trimStr s.userAcc⟩])
               ++ (if (trimStr s.modelAcc).isEmpty then []
                   else [⟨Role.model, trimStr s.modelAcc⟩]))))
    ∧ (runMsgs 1 (openState []) [(0, userDelta "Hello".data),
          (0, modelDelta "Bonjour".data), (0, turnCompleteMsg)]).1.transcriptions
        = [⟨Role.user, "Hello".data⟩, ⟨Role.model, "Bonjour".data⟩]
    ∧ (runMsgs 1 (openState []) [(0, modelDelta "Bonjour".data),
          (0, turnCompleteMsg)]).1.transcriptions
        = [⟨Role.model, "Bonjour".data⟩] := by
  refine ⟨?_, by decide, by decide⟩
  intro rate now s
  refine ⟨rfl, rfl, ?_⟩
  show (turnCompleteStep s true).transcriptions = _
  simp only [turnCompleteStep]
  split <;> rfl

/-- C7: calling `stopSession` twice in sequence yields the same state as
calling it once; the second call performs no release action and appends no
second history entry. -/
theorem stop_idempotent (s : SessionState) (id1 id2 : Str) (ts1 ts2 : ℤ) :
    stopSession id2 ts2 (stopSession id1 ts1 s).1
      = ((stopSession id1 ts1 s).1, []) := rfl

/-- C8: stopping persists a history entry exactly when the session is active
with a non-empty committed transcript; the entry holds the committed turns
in order, the given fresh id and timestamp, and a summary that is the first
turn's text, truncated to 60 characters plus "..." when longer than 60; in
the one-user-turn scenario exactly one entry with one turn is persisted. -/
theorem stop_history_entry (s : SessionState) (newId : Str) (ts : ℤ) :
    (¬ (s.isActive = true ∧ s.transcriptions ≠ []) →
        (stopSession newId ts s).1.history = s.history)
    ∧ (∀ (t : Turn) (rest : List Turn),
        s.isActive = true → s.transcriptions = t :: rest →
        (stopSession newId ts s).1.history
          = ({ id := newId, timestamp := ts, messages := t :: rest,
               summary := if 60 < t.text.length then t.text.take 60 ++ "...".data
                          else t.text } :: s.history).take 30)
    ∧ (stopSession newId ts oneTurnState).1.history
        = [{ id := newId, timestamp := ts,
             messages := [⟨Role.user, "Hello".data⟩],
             summary := "Hello".data }] := by
  refine ⟨?_, ?_, ?_⟩
  · intro hne
    cases hA : s.isActive
    · simp [stopSession, hA]
    · have hT : s.transcriptions = [] := by
        by_contra hcon
        exact hne ⟨hA, hcon⟩
      simp [stopSession, hA, hT, saveCurrentSessionToHistory]
  · intro t rest hA hT
    simp [stopSession, hA, hT, saveCurrentSessionToHistory, summaryOf]
  · simp [stopSession, oneTurnState, openState, saveCurrentSessionToHistory,
      summaryOf]

/-- Witness for C8: stopping the one-user-turn session prepends the entry
with its turns and truncated summary. -/
theorem stop_history_entry_witness :
    oneTurnState.isActive = true
    ∧ (stopSession "a".data 7 oneTurnState).1.history
        = ({ id := "a".data, timestamp := 7,
             messages := [⟨Role.user, "Hello".data⟩],
             summary := if 60 < "Hello".data.length
                        then "Hello".data.take 60 ++ "...".data
                        else "Hello".data } :: oneTurnState.history).take 30 :=
  ⟨rfl, (stop_history_entry oneTurnState "a".data 7).2.1
    ⟨Role.user, "Hello".data⟩ [] rfl rfl⟩

/-- C9: `parseApiError` classifies in order: 429 / "too many requests", then
401 / "api key", then 403, then 500 / 503, then "safety" / "blocked", then
"network" / "fetch", then "quota", and otherwise returns the unknown-error
fallback prefixed with "An unexpected error occurred: ". -/
theorem parse_api_error_order (msg : Str) :
    ((containsStr msg "429".data
        || containsStr (lowerStr msg) "too many requests".data) = true →
      parseApiError msg
        = "Rate limit exceeded. Please wait a moment before trying again.".data)
    ∧ ((containsStr msg "429".data
        || containsStr (lowerStr msg) "too many requests".data) = false →
       (containsStr msg "401".data
        || containsStr (lowerStr msg) "api key".data) = true →
      parseApiError msg
        = "Invalid API key. Please check your configuration.".data)
    ∧ ((containsStr msg "429".data
        || containsStr (lowerStr msg) "too many requests".data) = false →
       (containsStr msg "401".data
        || containsStr (lowerStr msg) "api key".data) = false →
       containsStr msg "403".data = true →
      parseApiError msg
        = "Permission denied. Your API key may not have access to this model or region.".data)
    ∧ ((containsStr msg "429".data
        || containsStr (lowerStr msg) "too many requests".data) = false →
       (containsStr msg "401".data
        || containsStr (lowerStr msg) "api key".data) = false →
       containsStr msg "403".data = false →
       (containsStr msg "500".data || containsStr msg "503".data) = true →
      parseApiError msg
        = "The translation service is currently busy or unavailable. Please try again later.".data)
    ∧ ((containsStr msg "429".data
        || containsStr (lowerStr msg) "too many requests".data) = false →
       (containsStr msg "401".data
        || containsStr (lowerStr msg) "api key".data) = false →
       containsStr msg "403".data = false →
       (containsStr msg "500".data || containsStr msg "503".data) = false →
       (containsStr (lowerStr msg) "safety".data
        || containsStr (lowerStr msg) "blocked".data) = true →
      parseApiError msg
        = "The content was flagged by safety filters and could not be processed.".data)
    ∧ ((containsStr msg "429".data
        || containsStr (lowerStr msg) "too many requests".data) = false →
       (containsStr msg "401".data
        || containsStr (lowerStr msg) "api key".data) = false →
       containsStr msg "403".data = false →
       (containsStr msg "500".data || containsStr msg "503".data) = false →
       (containsStr (lowerStr msg) "safety".data
        || containsStr (lowerStr msg) "blocked".data) = false →
       (containsStr (lowerStr msg) "network".data
        || containsStr (lowerStr msg) "fetch".data) = true →
      parseApiError msg
        = "Network error. Please check your internet connection.".data)
    ∧ ((containsStr msg "429".data
        || containsStr (lowerStr msg) "too many requests".data) = false →
       (containsStr msg "401".data
        || containsStr (lowerStr msg) "api key".data) = false →
       containsStr msg "403".data = false →
       (containsStr msg "500".data || containsStr msg "503".data) = false →
       (containsStr (lowerStr msg) "safety".data
        || containsStr (lowerStr msg) "blocked".data) = false →
       (containsStr (lowerStr msg) "network".data
        || containsStr (lowerStr msg) "fetch".data) = false →
       containsStr (lowerStr msg) "quota".data = true →
      parseApiError msg
        = "Account quota exceeded. Please check your Google AI Studio billing status.".data)
    ∧ ((containsStr msg "429".data
        || containsStr (lowerStr msg) "too many requests".data) = false →
       (containsStr msg "401".data
        || containsStr (lowerStr msg) "api key".data) = false →
       containsStr msg "403".data = false →
       (containsStr msg "500".data || containsStr msg "503".data) = false →
       (containsStr (lowerStr msg) "safety".data
        || containsStr (lowerStr msg) "blocked".data) = false →
       (containsStr (lowerStr msg) "network".data
        || containsStr (lowerStr msg) "fetch".data) = false →
       containsStr (lowerStr msg) "quota".data = false →
      parseApiError msg = "An unexpected error occurred: ".data ++ msg) := by
  refine ⟨?_, ?_, ?_, ?_, ?_, ?_, ?_, ?_⟩ <;>
    intros <;> simp_all [parseApiError]

/-- Witness for C9: a message containing 429 yields the rate-limit text. -/
theorem parse_api_error_order_witness :
    (containsStr "429".data "429".data
        || containsStr (lowerStr "429".data) "too many requests".data) = true
    ∧ parseApiError "429".data
        = "Rate limit exceeded. Please wait a moment before trying again.".data :=
  ⟨by decide, (parse_api_error_order "429".data).1 (by decide)⟩

/-- C10: starting from a fresh session, the visible transcript never holds
more than the 20 most recently committed turns, and hence any history entry
persisted on stop holds at most 20 turns. -/
theorem transcript_capped (rate : ℚ) (h0 : List VoiceHistoryItem)
    (msgs : List (ℚ × ServerMessage)) (newId : Str) (ts : ℤ) :
    (runMsgs rate (openState h0) msgs).1.transcriptions.length ≤ 20
    ∧ ∀ e ∈ (stopSession newId ts (runMsgs rate (openState h0) msgs).1).1.history,
        e ∈ h0 ∨ e.messages.length ≤ 20 := by
  have hlen : (runMsgs rate (openState h0) msgs).1.transcriptions.length ≤ 20 :=
    runMsgs_transcriptions_le rate msgs (openState h0) (by simp [openState])
  refine ⟨hlen, ?_⟩
  intro e he
  have hact : (runMsgs rate (openState h0) msgs).1.isActive = true := by
    rw [runMsgs_isActive]
    rfl
  have hh : (runMsgs rate (openState h0) msgs).1.history = h0 := by
    rw [runMsgs_history]
    rfl
  rw [show (stopSession newId ts (runMsgs rate (openState h0) msgs).1).1.history
        = if (runMsgs rate (openState h0) msgs).1.isActive then
            saveCurrentSessionToHistory newId ts
              (runMsgs rate (openState h0) msgs).1.transcriptions
              (runMsgs rate (openState h0) msgs).1.history
          else (runMsgs rate (openState h0) msgs).1.history from rfl,
      hact, hh] at he
  simp only [if_true] at he
  cases hT : (runMsgs rate (openState h0) msgs).1.transcriptions with
  | nil =>
    rw [hT] at he
    exact Or.inl he
  | cons m0 rest =>
    rw [hT] at he
    have hmem : e ∈ (⟨newId, ts, m0 :: rest, summaryOf m0.text⟩ : VoiceHistoryItem) :: h0 :=
      List.take_subset 30 _ he
    rcases List.mem_cons.mp hmem with heq | hin
    · right
      rw [heq]
      rw [hT] at hlen
      exact hlen
    · exact Or.inl hin

/-- Witness for C10: a no-message session stopped over a one-entry history
leaves that entry, which is in the initial history. -/
theorem transcript_capped_witness :
    (⟨"h".data, 0, [], []⟩ : VoiceHistoryItem)
      ∈ (stopSession "b".data 3 (runMsgs 1
          (openState [(⟨"h".data, 0, [], []⟩ : VoiceHistoryItem)]) []).1).1.history
    ∧ ((⟨"h".data, 0, [], []⟩ : VoiceHistoryItem)
        ∈ [(⟨"h".data, 0, [], []⟩ : VoiceHistoryItem)]
      ∨ (⟨"h".data, 0, [], []⟩ : VoiceHistoryItem).messages.length ≤ 20) :=
  ⟨by decide,
   (transcript_capped 1 [(⟨"h".data, 0, [], []⟩ : VoiceHistoryItem)] [] "b".data 3).2
     ⟨"h".data, 0, [], []⟩ (by decide)⟩

end LiveVoice
